import Mathlib

/-!
Verification development for the `proxystore-benchmarks` repository.

Shallow embedding of:
* `psbench/benchmarks/stream_scaling/main.py` : `pregenerate`,
  `Benchmark.__init__` and `Benchmark.run` (the consume/submit loop with
  its deque of in-flight futures, the `KeyboardInterrupt` handler and the
  final drain);
* `psbench/proxystore.py` : `init_store_from_args`;
* `psbench/argparse.py` : `add_proxystore_options` and `add_ipfs_options`
  (the conditional `required=` flags computed by `re.search` over the
  joined `sys.argv`);
* `psbench/results.py` : `CSVLogger` / `field_names` (this module is not
  part of the provided source tree; it is modelled from the specification).

Modelling conventions: Python floats are modelled by rationals; wall-clock
timestamps are outside the embedding and the corresponding `RunResult`
fields are fixed to `0`; Python exceptions are modelled with
`Except String`; the external executor, store, stream and future objects
are modelled by the data that flows through them: compute-task futures are
identified by consecutive natural numbers in submission order, the deque
`running_tasks` is a `List Nat` whose head is the oldest element, and a
`KeyboardInterrupt` arriving during the consume/submit loop is modelled by
an optional iteration index at which the loop is cut short.
-/

namespace PSBench

/-! ### `psbench/benchmarks/stream_scaling/main.py` -/

/-- Fields of one trial's `RunConfig` as read by `Benchmark.run`
(`config.data_size_bytes`, `config.task_count`, `config.task_sleep`). -/
structure RunConfig where
  data_size_bytes : Nat
  task_count : Nat
  task_sleep : ℚ
deriving Repr, DecidableEq

/-- Fields of the `RunResult` record constructed at the end of
`Benchmark.run`.  The two wall-clock timestamps are not modelled and are
always `0` here. -/
structure RunResult where
  executor : String
  connector : String
  stream : String
  data_size_bytes : Nat
  task_count : Nat
  task_sleep : ℚ
  workers : Nat
  completed_tasks : Nat
  start_submit_tasks_timestamp : ℚ
  end_tasks_done_timestamp : ℚ
deriving Repr, DecidableEq

/-- `pregenerate(size, interval, example_size, example_time)`.  The Python
defaults `example_size=100_000_000` and `example_time=0.250` are passed
explicitly at the call sites of this embedding. -/
def pregenerate (size : Nat) (interval : ℚ) (example_size : Nat)
    (example_time : ℚ) : Bool :=
  let example_rate : ℚ := (example_size : ℚ) / example_time
  let expected_time : ℚ := (size : ℚ) / example_rate
  decide (expected_time > interval)

/-- The state a `Benchmark` object carries after `__init__`: the class
names used for the result record and the executor's `max_workers`. -/
structure Benchmark where
  executor_name : String
  connector_name : String
  stream_kind : String
  max_workers : Nat
deriving Repr, DecidableEq

/-- `Benchmark.__init__`: raises `ValueError` when the executor's
`max_workers` is `None`, otherwise stores it on the benchmark object. -/
def mkBenchmark (executor_name connector_name stream_kind : String)
    (executor_max_workers : Option Nat) : Except String Benchmark :=
  match executor_max_workers with
  | none => .error ("Executor max_workers is None but this benchmark requires "
      ++ "the executor to define the maximum number of workers.")
  | some mw => .ok { executor_name := executor_name
                     connector_name := connector_name
                     stream_kind := stream_kind
                     max_workers := mw }

/-- State of the consume/submit loop in `Benchmark.run`: the
`running_tasks` deque (head is the oldest future), `completed_tasks`, the
futures already awaited via `result()` in the order they were awaited, and
the identifier of the next compute task to submit. -/
structure LoopState where
  running_tasks : List Nat
  completed_tasks : Nat
  awaited : List Nat
  next_id : Nat
deriving Repr, DecidableEq

/-- Loop state before the first iteration of the consume/submit loop. -/
def initLoopState : LoopState :=
  { running_tasks := [], completed_tasks := 0, awaited := [], next_id := 0 }

/-- One iteration of the `for i, item in enumerate(self.consumer)` loop:
submit a compute task and append its future to `running_tasks`; then, if
`len(running_tasks) >= compute_workers`, pop the oldest future
(`popleft`) and block on its `result()`.  `compute_workers` is an integer
because Python computes `self.max_workers - 1` without truncation. -/
def loopStep (compute_workers : Int) (s : LoopState) : LoopState :=
  let rt := s.running_tasks ++ [s.next_id]
  if (rt.length : Int) ≥ compute_workers then
    { running_tasks := rt.tail
      completed_tasks := s.completed_tasks + 1
      awaited := s.awaited ++ rt.take 1
      next_id := s.next_id + 1 }
  else
    { running_tasks := rt
      completed_tasks := s.completed_tasks
      awaited := s.awaited
      next_id := s.next_id + 1 }

/-- Run `k` iterations of the consume/submit loop. -/
def loopRun (compute_workers : Int) : Nat → LoopState → LoopState
  | 0, s => s
  | k + 1, s => loopRun compute_workers k (loopStep compute_workers s)

/-- The final `while len(running_tasks) > 0` drain: pop the oldest future,
block on its `result()` and increment `completed_tasks`, until the deque
is empty.  Returns the final `completed_tasks` count and awaited order. -/
def drainList : List Nat → Nat → List Nat → Nat × List Nat
  | [], completed, awaited => (completed, awaited)
  | t :: rest, completed, awaited => drainList rest (completed + 1) (awaited ++ [t])

/-- Apply the final drain to a loop state. -/
def drainLoop (s : LoopState) : LoopState :=
  let p := drainList s.running_tasks s.completed_tasks s.awaited
  { running_tasks := [], completed_tasks := p.1, awaited := p.2
    next_id := s.next_id }

/-- The lengths the `running_tasks` deque takes during one loop iteration:
the length right after the `append`, and additionally the length right
after the `popleft` when the drain condition fires. -/
def stepLens (compute_workers : Int) (s : LoopState) : List Nat :=
  let l1 := s.running_tasks.length + 1
  if (l1 : Int) ≥ compute_workers then [l1, l1 - 1] else [l1]

/-- All the lengths the `running_tasks` deque takes during `k` iterations
of the consume/submit loop. -/
def loopTrace (compute_workers : Int) : Nat → LoopState → List Nat
  | 0, _ => []
  | k + 1, s => stepLens compute_workers s ++ loopTrace compute_workers k (loopStep compute_workers s)

/-- Number of loop iterations actually executed: all `stream_len` consumed
items when no interrupt arrives, and `min k stream_len` when a
`KeyboardInterrupt` arrives after `k` full iterations. -/
def effectiveIters (stream_len : Nat) : Option Nat → Nat
  | none => stream_len
  | some k => min k stream_len

/-- Whether the `except KeyboardInterrupt` handler runs: the interrupt
point must lie strictly inside the loop. -/
def wasInterrupted (stream_len : Nat) : Option Nat → Bool
  | none => false
  | some k => decide (k < stream_len)

/-- Everything observable about one execution of `Benchmark.run`: the
returned `RunResult`, whether `stop_generator.set_result(True)` ran, how
many times `generator_task_future.result()` was called, the order in which
compute-task futures were awaited, whether payload pre-generation was
requested from the generator task, the producer interval, and every length
the `running_tasks` deque took during the consume/submit loop (after the
loop the deque only ever shrinks). -/
structure RunOutcome where
  result : RunResult
  stop_generator_set : Bool
  generator_result_awaits : Nat
  awaited_order : List Nat
  pregen_requested : Bool
  producer_interval : ℚ
  deque_len_trace : List Nat
deriving Repr, DecidableEq

/-- `Benchmark.run`.  `stream_len` is the number of items the stream
consumer yields; `interrupt_at = some k` models a `KeyboardInterrupt`
raised once the loop has finished `k` iterations (no interrupt when
`k ≥ stream_len`).  When `compute_workers = 0` the very first computation
`config.task_sleep / compute_workers` raises `ZeroDivisionError`.  The
caught interrupt sets the stop flag; the `finally` block and the statement
after the `try` both call `generator_task_future.result()`; the final
drain then awaits every future still in the deque. -/
def Benchmark.run (b : Benchmark) (config : RunConfig) (stream_len : Nat)
    (interrupt_at : Option Nat) : Except String RunOutcome :=
  let compute_workers : Int := (b.max_workers : Int) - 1
  if compute_workers = 0 then
    .error "ZeroDivisionError: float division by zero"
  else
    let producer_interval : ℚ := config.task_sleep / (compute_workers : ℚ)
    let pregen_data : Bool :=
      pregenerate config.data_size_bytes producer_interval 100000000 ((1 : ℚ) / 4)
    let iters : Nat := effectiveIters stream_len interrupt_at
    let interrupted : Bool := wasInterrupted stream_len interrupt_at
    let after_loop := loopRun compute_workers iters initLoopState
    let final := drainLoop after_loop
    .ok {
      result := {
        executor := b.executor_name
        connector := b.connector_name
        stream := b.stream_kind
        data_size_bytes := config.data_size_bytes
        task_count := config.task_count
        task_sleep := config.task_sleep
        workers := b.max_workers
        completed_tasks := final.completed_tasks
        start_submit_tasks_timestamp := 0
        end_tasks_done_timestamp := 0 }
      stop_generator_set := interrupted
      generator_result_awaits := 2
      awaited_order := final.awaited
      pregen_requested := pregen_data
      producer_interval := producer_interval
      deque_len_trace := loopTrace compute_workers iters initLoopState }

/-- Project the payload out of a successful run (used to state concrete
evaluations); the `error` case returns an all-zero placeholder. -/
def okOutcome (e : Except String RunOutcome) : RunOutcome :=
  match e with
  | .ok o => o
  | .error _ =>
    { result := { executor := "", connector := "", stream := ""
                  data_size_bytes := 0, task_count := 0, task_sleep := 0
                  workers := 0, completed_tasks := 0
                  start_submit_tasks_timestamp := 0
                  end_tasks_done_timestamp := 0 }
      stop_generator_set := false
      generator_result_awaits := 0
      awaited_order := []
      pregen_requested := false
      producer_interval := 0
      deque_len_trace := [] }

/-- A concrete benchmark object used for concrete evaluations. -/
def bEx : Benchmark :=
  { executor_name := "ThreadPoolExecutor", connector_name := "FileConnector"
    stream_kind := "redis", max_workers := 3 }

/-- A benchmark object with `max_workers = 1`. -/
def bOne : Benchmark :=
  { executor_name := "ThreadPoolExecutor", connector_name := "FileConnector"
    stream_kind := "redis", max_workers := 1 }

/-- A concrete run configuration. -/
def cfgEx : RunConfig :=
  { data_size_bytes := 1000, task_count := 5, task_sleep := 1 }

/-- A run configuration whose payload is large enough that pre-generation
is requested. -/
def cfgBig : RunConfig :=
  { data_size_bytes := 1000000000, task_count := 3, task_sleep := 1 }

/-! ### `psbench/proxystore.py` -/

/-- Python truthiness test `not args.ps_backend` for an optional string
(`None` and the empty string are falsy). -/
def pyFalsy : Option String → Bool
  | none => true
  | some s => s == ""

/-- The connector constructed for each recognized backend, carrying the
backend-specific constructor arguments. -/
inductive Connector where
  | endpointConn (endpoints : List String)
  | fileConn (store_dir : String)
  | globusConn (endpoints_json : String)
  | redisConn (hostname : String) (port : Nat)
  | margoConn (port : Nat) (protocol : String) (address : Option String)
      (dim_interface : Option String)
  | ucxConn (port : Nat) (dim_interface : Option String) (address : Option String)
  | zmqConn (port : Nat) (dim_interface : Option String) (address : Option String)
deriving Repr, DecidableEq

/-- A ProxyStore `Store` as built by `init_store_from_args`: its name, its
connector and whether `register_store` was called on it. -/
structure Store where
  name : String
  connector : Connector
  registered : Bool
deriving Repr, DecidableEq

/-- The namespace fields `init_store_from_args` reads. -/
structure PSArgs where
  ps_backend : Option String
  ps_endpoints : List String
  ps_file_dir : String
  ps_globus_config : String
  ps_host : String
  ps_port : Nat
  ps_margo_protocol : String
  ps_address : Option String
  ps_dim_interface : Option String
deriving Repr, DecidableEq

/-- `init_store_from_args`: `None` for a falsy backend, a string dispatch
over the seven recognized backends each building and registering a store
named `f'{args.ps_backend}-STORE'`, and `ValueError` otherwise. -/
def init_store_from_args (args : PSArgs) : Except String (Option Store) :=
  if pyFalsy args.ps_backend then
    .ok none
  else
    let mkStore : Connector → Except String (Option Store) := fun c =>
      .ok (some { name := args.ps_backend.getD "" ++ "-STORE"
                  connector := c, registered := true })
    if args.ps_backend = some "ENDPOINT" then
      mkStore (.endpointConn args.ps_endpoints)
    else if args.ps_backend = some "FILE" then
      mkStore (.fileConn args.ps_file_dir)
    else if args.ps_backend = some "GLOBUS" then
      mkStore (.globusConn args.ps_globus_config)
    else if args.ps_backend = some "REDIS" then
      mkStore (.redisConn args.ps_host args.ps_port)
    else if args.ps_backend = some "MARGO" then
      mkStore (.margoConn args.ps_port args.ps_margo_protocol args.ps_address
        args.ps_dim_interface)
    else if args.ps_backend = some "UCX" then
      mkStore (.ucxConn args.ps_port args.ps_dim_interface args.ps_address)
    else if args.ps_backend = some "ZMQ" then
      mkStore (.zmqConn args.ps_port args.ps_dim_interface args.ps_address)
    else
      .error ("Invalid backend: " ++ args.ps_backend.getD "")

/-- A concrete argument namespace used for concrete evaluations. -/
def psArgsEx (backend : Option String) : PSArgs :=
  { ps_backend := backend, ps_endpoints := ["uuid-1", "uuid-2"]
    ps_file_dir := "/tmp/ps", ps_globus_config := "globus.json"
    ps_host := "localhost", ps_port := 6379, ps_margo_protocol := "tcp"
    ps_address := none, ps_dim_interface := none }

/-! ### `psbench/argparse.py` -/

/-- Python `\s` character class over the joined argument string. -/
def pySpace (c : Char) : Bool :=
  c == ' ' || c == '\t' || c == '\n' || c == '\r' ||
    c == Char.ofNat 11 || c == Char.ofNat 12

/-- Drop `p` from the front of `l` when `p` leads `l`, else `none`. -/
def stripChars : List Char → List Char → Option (List Char)
  | [], l => some l
  | _ :: _, [] => none
  | p :: ps, c :: cs => if p == c then stripChars ps cs else none

/-- Does `p` lead `l`? -/
def leadsChars : List Char → List Char → Bool
  | [], _ => true
  | _ :: _, [] => false
  | p :: ps, c :: cs => p == c && leadsChars ps cs

/-- What must follow the literal `--ps-backend` for the regex
`--ps-backend( |=)(O1|...|On)` to match at a position: a space or `=`,
then one of the alternatives. -/
def backendMatchTail (opts : List (List Char)) : Option (List Char) → Bool
  | some (c :: rest) => (c == ' ' || c == '=') && opts.any (fun o => leadsChars o rest)
  | _ => false

/-- One position of the regex `--ps-backend( |=)(O1|...|On)`. -/
def backendMatchAt (opts : List (List Char)) (l : List Char) : Bool :=
  backendMatchTail opts (stripChars "--ps-backend".toList l)

/-- What must follow the literal `--ipfs` for the regex `--ipfs($|\s)` to
match at a position: the end of the string or a whitespace character. -/
def ipfsMatchTail : Option (List Char) → Bool
  | some [] => true
  | some (c :: _) => pySpace c
  | none => false

/-- One position of the regex `--ipfs($|\s)`. -/
def ipfsMatchAt (l : List Char) : Bool :=
  ipfsMatchTail (stripChars "--ipfs".toList l)

/-- `re.search`: try the position matcher at every suffix. -/
def reSearch (m : List Char → Bool) : List Char → Bool
  | [] => m []
  | c :: cs => m (c :: cs) || reSearch m cs

/-- `' '.join(sys.argv)`. -/
def joinArgv (argv : List String) : String :=
  String.intercalate " " argv

/-- The `required=` values `add_proxystore_options` passes for each flag in
its argument group. -/
structure ProxystoreOpts where
  ps_backend_required : Bool
  ps_endpoints_required : Bool
  ps_file_dir_required : Bool
  ps_globus_config_required : Bool
  ps_host_required : Bool
  ps_port_required : Bool
deriving Repr, DecidableEq

/-- `add_proxystore_options(parser, required)`: `--ps-backend` is required
iff the caller says so; each backend-specific flag is required iff
`re.search` finds its governing pattern in the joined `sys.argv`. -/
def add_proxystore_options (argv : List String) (required : Bool) : ProxystoreOpts :=
  let args_str := (joinArgv argv).toList
  { ps_backend_required := required
    ps_endpoints_required := reSearch (backendMatchAt ["ENDPOINT".toList]) args_str
    ps_file_dir_required := reSearch (backendMatchAt ["FILE".toList]) args_str
    ps_globus_config_required := reSearch (backendMatchAt ["GLOBUS".toList]) args_str
    ps_host_required := reSearch (backendMatchAt ["REDIS".toList]) args_str
    ps_port_required := reSearch
      (backendMatchAt ["REDIS".toList, "MARGO".toList, "UCX".toList, "ZMQ".toList])
      args_str }

/-- The `required=` values `add_ipfs_options` passes for the two IPFS
directory flags. -/
structure IpfsOpts where
  ipfs_local_dir_required : Bool
  ipfs_remote_dir_required : Bool
deriving Repr, DecidableEq

/-- `add_ipfs_options(parser)`: both directory flags are required iff
`re.search(r'--ipfs($|\s)', ' '.join(sys.argv))` finds a match. -/
def add_ipfs_options (argv : List String) : IpfsOpts :=
  let args_str := (joinArgv argv).toList
  { ipfs_local_dir_required := reSearch ipfsMatchAt args_str
    ipfs_remote_dir_required := reSearch ipfsMatchAt args_str }

/-- Declarative reading of a `re.search` hit of
`--ps-backend( |=)OPT` in a character string: somewhere in `s` the literal
`--ps-backend` occurs, followed by a space or `=`, followed by `OPT`. -/
def BackendSelected (opt : String) (s : List Char) : Prop :=
  ∃ a sep b, (sep = ' ' ∨ sep = '=') ∧
    s = a ++ ("--ps-backend".toList ++ sep :: (opt.toList ++ b))

/-- Declarative reading of a `re.search` hit of `--ipfs($|\s)`: somewhere
in `s` the literal `--ipfs` occurs, either at the very end or followed by
a whitespace character. -/
def IpfsFlagGiven (s : List Char) : Prop :=
  (∃ a, s = a ++ "--ipfs".toList) ∨
    ∃ a c b, pySpace c = true ∧ s = a ++ ("--ipfs".toList ++ c :: b)

/-! ### `psbench/results.py` (modelled from the spec) -/

/-- Modelled from the spec: `psbench/results.py` is not part of the
provided source tree, only its tests are.  Per the specification the CSV
logger "reflects the field names of an arbitrary record type via three
alternative introspection strategies (named-tuple fields, dataclass
fields, validated-model fields)".  A record type is therefore one of the
three shapes together with its ordered field names. -/
inductive RecordType where
  | namedTuple (fields : List String)
  | dataclassRec (fields : List String)
  | validatedModel (fields : List String)
deriving Repr, DecidableEq

/-- Modelled from the spec: `field_names` returns the reflected field
names of a record type, independent of its shape. -/
def field_names : RecordType → List String
  | .namedTuple fs => fs
  | .dataclassRec fs => fs
  | .validatedModel fs => fs

/-- A CSV file on disk: its header row and its data rows. -/
structure CSVFile where
  header : List String
  rows : List (List String)
deriving Repr, DecidableEq

/-- An open CSV logger: the file it writes to and whether this
construction wrote the header row. -/
structure CSVLoggerState where
  file : CSVFile
  wrote_header : Bool
deriving Repr, DecidableEq

/-- Modelled from the spec: constructing a `CSVLogger` "opens a file for
append-or-create, ... writes a header only when the file is newly created,
raises if a caller supplies a record type whose field set doesn't match a
file's existing header".  `existing` is the current content of the target
path (`none` when the file does not exist yet). -/
def CSVLogger.open (existing : Option CSVFile) (rt : RecordType) :
    Except String CSVLoggerState :=
  match existing with
  | none =>
    .ok { file := { header := field_names rt, rows := [] }, wrote_header := true }
  | some f =>
    if f.header = field_names rt then
      .ok { file := f, wrote_header := false }
    else
      .error "CSV file exists but its header does not match the record type"

/-- Modelled from the spec: `CSVLogger.log` appends one data row; it never
touches the header. -/
def CSVLogger.log (st : CSVLoggerState) (row : List String) : CSVLoggerState :=
  { st with file := { st.file with rows := st.file.rows ++ [row] } }

/-- Concrete CSV file used for concrete evaluations (mirrors the record
shape of the repository's tests). -/
def csvFileEx : CSVFile :=
  { header := ["time", "value", "result"], rows := [["1.0", "2", "3"]] }

/-! ### Lemmas about the consume/submit loop -/

theorem loopStep_next_id (cw : Int) (s : LoopState) :
    (loopStep cw s).next_id = s.next_id + 1 := by
  simp only [loopStep]
  split <;> rfl

theorem loopRun_next_id (cw : Int) : ∀ (k : Nat) (s : LoopState),
    (loopRun cw k s).next_id = s.next_id + k
  | 0, s => by simp [loopRun]
  | k + 1, s => by
    rw [loopRun, loopRun_next_id cw k, loopStep_next_id]
    omega

theorem loopStep_inv (cw : Int) (s : LoopState)
    (h : s.awaited ++ s.running_tasks = List.range s.next_id ∧
      s.completed_tasks = s.awaited.length) :
    (loopStep cw s).awaited ++ (loopStep cw s).running_tasks =
      List.range (loopStep cw s).next_id ∧
    (loopStep cw s).completed_tasks = (loopStep cw s).awaited.length := by
  obtain ⟨h1, h2⟩ := h
  simp only [loopStep]
  split
  · constructor
    · rw [List.append_assoc, ← List.drop_one, List.take_append_drop,
        ← List.append_assoc, h1, ← List.range_succ]
    · simp only [List.length_append, List.length_take, List.length_cons,
        List.length_nil]
      omega
  · constructor
    · rw [← List.append_assoc, h1, ← List.range_succ]
    · exact h2

theorem loopRun_inv (cw : Int) : ∀ (k : Nat) (s : LoopState),
    (s.awaited ++ s.running_tasks = List.range s.next_id ∧
      s.completed_tasks = s.awaited.length) →
    ((loopRun cw k s).awaited ++ (loopRun cw k s).running_tasks =
       List.range (loopRun cw k s).next_id ∧
     (loopRun cw k s).completed_tasks = (loopRun cw k s).awaited.length)
  | 0, s, h => by simpa [loopRun] using h
  | k + 1, s, h => by
    rw [loopRun]
    exact loopRun_inv cw k (loopStep cw s) (loopStep_inv cw s h)

theorem loopStep_len (cw : Int) (s : LoopState)
    (h : (s.running_tasks.length : Int) ≤ cw - 1) :
    ((loopStep cw s).running_tasks.length : Int) ≤ cw - 1 := by
  simp only [loopStep]
  split
  · simp only [List.length_tail, List.length_append, List.length_cons,
      List.length_nil]
    omega
  · rename_i hc
    simp only [List.length_append, List.length_cons, List.length_nil] at hc ⊢
    omega

theorem loopTrace_le (cw : Int) (hcw : 1 ≤ cw) :
    ∀ (k : Nat) (s : LoopState), (s.running_tasks.length : Int) ≤ cw - 1 →
      ∀ x ∈ loopTrace cw k s, (x : Int) ≤ cw
  | 0, s, _, x, hx => by simp [loopTrace] at hx
  | k + 1, s, h, x, hx => by
    rw [loopTrace] at hx
    rcases List.mem_append.mp hx with hx | hx
    · simp only [stepLens] at hx
      split at hx
      · rcases List.mem_pair.mp hx with rfl | rfl <;> push_cast <;> omega
      · rcases List.mem_singleton.mp hx with rfl
        push_cast
        omega
    · exact loopTrace_le cw hcw k (loopStep cw s) (loopStep_len cw s h) x hx

theorem drainList_eq : ∀ (l : List Nat) (c : Nat) (a : List Nat),
    drainList l c a = (c + l.length, a ++ l)
  | [], c, a => by simp [drainList]
  | t :: rest, c, a => by
    rw [drainList, drainList_eq rest]
    have harith : c + 1 + rest.length = c + (t :: rest).length := by
      simp only [List.length_cons]
      omega
    have hlist : (a ++ [t]) ++ rest = a ++ t :: rest := by
      simp [List.append_assoc]
    rw [harith, hlist]

theorem finalState_spec (cw : Int) (iters : Nat) :
    (drainLoop (loopRun cw iters initLoopState)).awaited = List.range iters ∧
    (drainLoop (loopRun cw iters initLoopState)).completed_tasks = iters := by
  obtain ⟨h1, h2⟩ := loopRun_inv cw iters initLoopState
    (by simp [initLoopState])
  have hnid : (loopRun cw iters initLoopState).next_id = iters := by
    have := loopRun_next_id cw iters initLoopState
    simpa [initLoopState] using this
  rw [hnid] at h1
  have hlen : (loopRun cw iters initLoopState).awaited.length +
      (loopRun cw iters initLoopState).running_tasks.length = iters := by
    have := congrArg List.length h1
    simpa using this
  constructor
  · simp only [drainLoop, drainList_eq]
    exact h1
  · simp only [drainLoop, drainList_eq]
    omega
/-! ### The shape of a successful run -/

theorem run_returns (b : Benchmark) (config : RunConfig) (stream_len : Nat)
    (interrupt_at : Option Nat) (hmw : b.max_workers ≠ 1) :
    ∃ out, b.run config stream_len interrupt_at = .ok out := by
  have hz : ¬((b.max_workers : Int) - 1 = 0) := by omega
  exact ⟨_, by
    simp only [Benchmark.run]
    rw [if_neg hz]⟩

theorem run_spec (b : Benchmark) (config : RunConfig) (stream_len : Nat)
    (interrupt_at : Option Nat) (out : RunOutcome)
    (hrun : b.run config stream_len interrupt_at = .ok out) :
    out.awaited_order = List.range (effectiveIters stream_len interrupt_at) ∧
    out.result.completed_tasks = effectiveIters stream_len interrupt_at ∧
    out.stop_generator_set = wasInterrupted stream_len interrupt_at ∧
    out.generator_result_awaits = 2 ∧
    out.pregen_requested = pregenerate config.data_size_bytes
      (config.task_sleep / (((b.max_workers : Int) - 1 : Int) : ℚ)) 100000000
      ((1 : ℚ) / 4) ∧
    out.deque_len_trace = loopTrace ((b.max_workers : Int) - 1)
      (effectiveIters stream_len interrupt_at) initLoopState ∧
    out.result.data_size_bytes = config.data_size_bytes ∧
    out.result.task_count = config.task_count ∧
    out.result.task_sleep = config.task_sleep ∧
    out.result.workers = b.max_workers := by
  simp only [Benchmark.run] at hrun
  split at hrun
  · simp at hrun
  · simp only [Except.ok.injEq] at hrun
    subst hrun
    exact ⟨(finalState_spec _ _).1, (finalState_spec _ _).2, rfl, rfl, rfl,
      rfl, rfl, rfl, rfl, rfl⟩

/-! ### Claim theorems for the stream-scaling benchmark -/

/-- Claim C1: throughout every execution of `Benchmark.run` the length of
the `running_tasks` deque never exceeds `max_workers - 1`: every length
the deque takes during the consume/submit loop — right after each append
and, when the cap fires, right after the pop that precedes the next
submission — is at most `max_workers - 1` (after the loop the deque only
ever shrinks). -/
theorem run_inflight_bound (b : Benchmark) (config : RunConfig)
    (stream_len : Nat) (interrupt_at : Option Nat) (out : RunOutcome)
    (hmw : 2 ≤ b.max_workers)
    (hrun : b.run config stream_len interrupt_at = .ok out) :
    ∀ x ∈ out.deque_len_trace, x ≤ b.max_workers - 1 := by
  obtain ⟨-, -, -, -, -, ht, -⟩ :=
    run_spec b config stream_len interrupt_at out hrun
  intro x hx
  rw [ht] at hx
  have hb := loopTrace_le ((b.max_workers : Int) - 1) (by omega)
    (effectiveIters stream_len interrupt_at) initLoopState
    (by simp [initLoopState]; omega) x hx
  omega

/-- Concrete instantiation of `run_inflight_bound`: with `max_workers = 3`
and five stream items, `2` is a deque length reached during the loop and
it satisfies the bound `max_workers - 1`. -/
theorem run_inflight_bound_witness :
    2 ∈ (okOutcome (bEx.run cfgEx 5 none)).deque_len_trace ∧
      2 ≤ bEx.max_workers - 1 :=
  ⟨by decide,
    run_inflight_bound bEx cfgEx 5 none (okOutcome (bEx.run cfgEx 5 none))
      (by decide) rfl 2 (by decide)⟩

/-- Claim C2: compute-task futures are awaited in exactly submission
order.  Futures are numbered `0, 1, 2, …` in submission order, and for
every run — interrupted at any point or not — the successive `result()`
calls (both the in-loop drain and the final drain always take the oldest
deque element) consume exactly `[0, 1, …]`, so no future is awaited before
an earlier-submitted one. -/
theorem run_fifo_order (b : Benchmark) (config : RunConfig)
    (stream_len : Nat) (interrupt_at : Option Nat) (out : RunOutcome)
    (hrun : b.run config stream_len interrupt_at = .ok out) :
    out.awaited_order = List.range (effectiveIters stream_len interrupt_at) :=
  (run_spec b config stream_len interrupt_at out hrun).1

/-- Concrete instantiation of `run_fifo_order` on an interrupted run. -/
theorem run_fifo_order_witness :
    (okOutcome (bEx.run cfgEx 5 (some 2))).awaited_order =
      List.range (effectiveIters 5 (some 2)) :=
  run_fifo_order bEx cfgEx 5 (some 2) (okOutcome (bEx.run cfgEx 5 (some 2))) rfl

/-- Claim C3: a `KeyboardInterrupt` arriving after `k` iterations of the
consume/submit loop (with more stream items still pending) leads to a
graceful stop: the `stop_generator` future is set to `True`, the generator
task's result is awaited, every compute future remaining in the deque is
still awaited — the awaited order is exactly the `k` submitted futures and
each await increments `completed_tasks`, so `completed_tasks = k` — and a
`RunResult` is still returned rather than the interrupt propagating
out. -/
theorem run_interrupt_graceful (b : Benchmark) (config : RunConfig)
    (stream_len k : Nat) (hmw : 2 ≤ b.max_workers) (hk : k < stream_len) :
    ∃ out, b.run config stream_len (some k) = .ok out ∧
      out.stop_generator_set = true ∧
      1 ≤ out.generator_result_awaits ∧
      out.awaited_order = List.range k ∧
      out.result.completed_tasks = k := by
  obtain ⟨out, hrun⟩ := run_returns b config stream_len (some k) (by omega)
  obtain ⟨ha, hc, hs, hg, -⟩ := run_spec b config stream_len (some k) out hrun
  have heff : effectiveIters stream_len (some k) = k := by
    simp only [effectiveIters]
    omega
  refine ⟨out, hrun, ?_, ?_, ?_, ?_⟩
  · rw [hs]
    simp [wasInterrupted, hk]
  · omega
  · rw [ha, heff]
  · rw [hc, heff]

/-- Concrete instantiation of `run_interrupt_graceful`: interrupt after 2
of 5 items. -/
theorem run_interrupt_graceful_witness :
    (okOutcome (bEx.run cfgEx 5 (some 2))).stop_generator_set = true ∧
      (okOutcome (bEx.run cfgEx 5 (some 2))).result.completed_tasks = 2 := by
  obtain ⟨out, heq, hstop, -, -, hcount⟩ :=
    run_interrupt_graceful bEx cfgEx 5 2 (by decide) (by decide)
  rw [heq]
  exact ⟨hstop, hcount⟩

/-- Claim C4: on an uninterrupted run every submitted compute future is
awaited exactly once — the awaited order is exactly the submission order
`[0, …, stream_len - 1]`, with no duplicate and no drop — and the
`completed_tasks` field of the returned `RunResult` equals the number of
items consumed from the stream, which equals the number of compute tasks
submitted. -/
theorem run_all_futures_awaited (b : Benchmark) (config : RunConfig)
    (stream_len : Nat) (out : RunOutcome)
    (hrun : b.run config stream_len none = .ok out) :
    out.awaited_order = List.range stream_len ∧
      out.awaited_order.Nodup ∧
      out.result.completed_tasks = stream_len := by
  obtain ⟨ha, hc, -⟩ := run_spec b config stream_len none out hrun
  have heff : effectiveIters stream_len none = stream_len := rfl
  rw [heff] at ha hc
  exact ⟨ha, ha ▸ List.nodup_range stream_len, hc⟩

/-- Concrete instantiation of `run_all_futures_awaited`. -/
theorem run_all_futures_awaited_witness :
    (okOutcome (bEx.run cfgEx 5 none)).awaited_order = List.range 5 ∧
      (okOutcome (bEx.run cfgEx 5 none)).awaited_order.Nodup ∧
      (okOutcome (bEx.run cfgEx 5 none)).result.completed_tasks = 5 :=
  run_all_futures_awaited bEx cfgEx 5 (okOutcome (bEx.run cfgEx 5 none)) rfl

/-- Claim C8: `pregenerate` returns `True` exactly when the expected
generation time `size / (example_size / example_time)` strictly exceeds
the interval; and `Benchmark.run` requests payload pre-generation exactly
when this holds for the configured data size and the producer interval
`task_sleep / (max_workers - 1)` (with the Python defaults
`example_size = 100_000_000`, `example_time = 0.250`). -/
theorem pregenerate_iff :
    (∀ (size : Nat) (interval : ℚ) (example_size : Nat) (example_time : ℚ),
      pregenerate size interval example_size example_time = true ↔
        (size : ℚ) / ((example_size : ℚ) / example_time) > interval) ∧
    (∀ (b : Benchmark) (config : RunConfig) (stream_len : Nat)
        (interrupt_at : Option Nat) (out : RunOutcome),
      b.run config stream_len interrupt_at = .ok out →
      out.pregen_requested =
        pregenerate config.data_size_bytes
          (config.task_sleep / ((b.max_workers : ℚ) - 1)) 100000000
          ((1 : ℚ) / 4)) := by
  constructor
  · intro size interval example_size example_time
    simp [pregenerate]
  · intro b config stream_len interrupt_at out hrun
    obtain ⟨-, -, -, -, hp, -⟩ :=
      run_spec b config stream_len interrupt_at out hrun
    rw [hp, show (((b.max_workers : Int) - 1 : Int) : ℚ) =
      (b.max_workers : ℚ) - 1 by push_cast; ring]

/-- Concrete instantiation of `pregenerate_iff`: a 1 GB payload at a
half-second producer interval is pre-generated. -/
theorem pregenerate_iff_witness :
    (okOutcome (bEx.run cfgBig 3 none)).pregen_requested =
      pregenerate cfgBig.data_size_bytes
        (cfgBig.task_sleep / ((bEx.max_workers : ℚ) - 1)) 100000000
        ((1 : ℚ) / 4) :=
  pregenerate_iff.2 bEx cfgBig 3 none (okOutcome (bEx.run cfgBig 3 none)) rfl

/-- Claim C9: `Benchmark.run` needs `max_workers ≥ 2`: with
`max_workers ≥ 2` the run returns a result (the division-by-zero branch is
unreachable), with `max_workers = 1` the computation
`config.task_sleep / compute_workers` at the top of `run` raises
`ZeroDivisionError`, and `Benchmark.__init__` raises `ValueError` when the
executor's `max_workers` is `None`, before `run` can be called. -/
theorem run_needs_two_workers (b : Benchmark) (config : RunConfig)
    (stream_len : Nat) (interrupt_at : Option Nat) :
    (2 ≤ b.max_workers →
      ∃ out, b.run config stream_len interrupt_at = .ok out) ∧
    (b.max_workers = 1 →
      b.run config stream_len interrupt_at =
        .error "ZeroDivisionError: float division by zero") ∧
    (∀ e c s, mkBenchmark e c s none =
      .error ("Executor max_workers is None but this benchmark requires "
        ++ "the executor to define the maximum number of workers.")) := by
  refine ⟨fun hmw => run_returns b config stream_len interrupt_at (by omega),
    fun h1 => ?_, fun e c s => rfl⟩
  simp only [Benchmark.run]
  rw [if_pos (show ((b.max_workers : Int) - 1 = 0) by omega)]

/-- Concrete instantiation of `run_needs_two_workers`: an executor with a
single worker fails immediately with a division by zero. -/
theorem run_needs_two_workers_witness :
    bOne.run cfgEx 3 none = .error "ZeroDivisionError: float division by zero" :=
  (run_needs_two_workers bOne cfgEx 3 none).2.1 rfl

/-- Claim C10: the `RunResult` returned by `Benchmark.run` echoes its
inputs unchanged: `data_size_bytes`, `task_count` and `task_sleep` come
from the `RunConfig` argument and `workers` is the executor's
`max_workers`, for every successful run regardless of how many tasks
actually completed. -/
theorem run_result_echoes_config (b : Benchmark) (config : RunConfig)
    (stream_len : Nat) (interrupt_at : Option Nat) (out : RunOutcome)
    (hrun : b.run config stream_len interrupt_at = .ok out) :
    out.result.data_size_bytes = config.data_size_bytes ∧
      out.result.task_count = config.task_count ∧
      out.result.task_sleep = config.task_sleep ∧
      out.result.workers = b.max_workers :=
  ((run_spec b config stream_len interrupt_at out hrun).2.2.2.2.2.2 : _)

/-- Concrete instantiation of `run_result_echoes_config`. -/
theorem run_result_echoes_config_witness :
    (okOutcome (bEx.run cfgEx 5 none)).result.data_size_bytes =
        cfgEx.data_size_bytes ∧
      (okOutcome (bEx.run cfgEx 5 none)).result.task_count = cfgEx.task_count ∧
      (okOutcome (bEx.run cfgEx 5 none)).result.task_sleep = cfgEx.task_sleep ∧
      (okOutcome (bEx.run cfgEx 5 none)).result.workers = bEx.max_workers :=
  run_result_echoes_config bEx cfgEx 5 none (okOutcome (bEx.run cfgEx 5 none)) rfl

/-! ### Claim theorem for `init_store_from_args` -/

/-- Claim C5: `init_store_from_args` returns `None` when `args.ps_backend`
is unset (falsy), raises `ValueError` for any other backend string not
among the seven recognized ones, and for each recognized backend string
returns a registered store named `{backend}-STORE` wrapping the connector
selected by that string, constructed from the corresponding
backend-specific arguments. -/
theorem init_store_dispatch (args : PSArgs) :
    (pyFalsy args.ps_backend = true → init_store_from_args args = .ok none) ∧
    (args.ps_backend = some "ENDPOINT" →
      init_store_from_args args = .ok (some
        { name := "ENDPOINT-STORE",
          connector := .endpointConn args.ps_endpoints,
          registered := true })) ∧
    (args.ps_backend = some "FILE" →
      init_store_from_args args = .ok (some
        { name := "FILE-STORE",
          connector := .fileConn args.ps_file_dir,
          registered := true })) ∧
    (args.ps_backend = some "GLOBUS" →
      init_store_from_args args = .ok (some
        { name := "GLOBUS-STORE",
          connector := .globusConn args.ps_globus_config,
          registered := true })) ∧
    (args.ps_backend = some "REDIS" →
      init_store_from_args args = .ok (some
        { name := "REDIS-STORE",
          connector := .redisConn args.ps_host args.ps_port,
          registered := true })) ∧
    (args.ps_backend = some "MARGO" →
      init_store_from_args args = .ok (some
        { name := "MARGO-STORE",
          connector := .margoConn args.ps_port args.ps_margo_protocol
            args.ps_address args.ps_dim_interface,
          registered := true })) ∧
    (args.ps_backend = some "UCX" →
      init_store_from_args args = .ok (some
        { name := "UCX-STORE",
          connector := .ucxConn args.ps_port args.ps_dim_interface
            args.ps_address,
          registered := true })) ∧
    (args.ps_backend = some "ZMQ" →
      init_store_from_args args = .ok (some
        { name := "ZMQ-STORE",
          connector := .zmqConn args.ps_port args.ps_dim_interface
            args.ps_address,
          registered := true })) ∧
    (∀ s, args.ps_backend = some s → s ≠ "" →
      s ∉ (["ENDPOINT", "FILE", "GLOBUS", "REDIS", "MARGO", "UCX", "ZMQ"] :
        List String) →
      init_store_from_args args = .error ("Invalid backend: " ++ s)) := by
  obtain ⟨bk, eps, fd, gc, host, port, proto, addr, intf⟩ := args
  refine ⟨?_, ?_, ?_, ?_, ?_, ?_, ?_, ?_, ?_⟩
  · intro h
    match bk, h with
    | none, _ => rfl
    | some s, h =>
      simp only [pyFalsy, beq_iff_eq] at h
      subst h
      rfl
  · intro h
    simp only at h
    subst h
    rfl
  · intro h
    simp only at h
    subst h
    rfl
  · intro h
    simp only at h
    subst h
    rfl
  · intro h
    simp only at h
    subst h
    rfl
  · intro h
    simp only at h
    subst h
    rfl
  · intro h
    simp only at h
    subst h
    rfl
  · intro h
    simp only at h
    subst h
    rfl
  · intro s h hne hmem
    simp only at h
    subst h
    simp only [List.mem_cons, List.mem_singleton, not_or] at hmem
    obtain ⟨h1, h2, h3, h4, h5, h6, h7⟩ := hmem
    simp [init_store_from_args, pyFalsy, hne, h1, h2, h3, h4, h5, h6, h7]

/-- Concrete instantiation of `init_store_dispatch`: an unrecognized
backend string raises. -/
theorem init_store_dispatch_witness :
    init_store_from_args (psArgsEx (some "BLAH")) =
      .error ("Invalid backend: " ++ "BLAH") :=
  (init_store_dispatch (psArgsEx (some "BLAH"))).2.2.2.2.2.2.2.2 "BLAH" rfl
    (by decide) (by decide)

/-! ### Search-correctness lemmas for the argparse regexes -/

theorem stripChars_some_iff : ∀ (p l r : List Char),
    stripChars p l = some r ↔ l = p ++ r
  | [], l, r => by simp [stripChars]
  | _ :: _, [], _ => by simp [stripChars]
  | p :: ps, c :: cs, r => by
    simp only [stripChars, List.cons_append]
    by_cases hpc : p = c
    · subst hpc
      rw [if_pos (by simp)]
      rw [stripChars_some_iff ps cs r]
      simp
    · rw [if_neg (by simpa using hpc)]
      simp only [List.cons.injEq]
      constructor
      · intro h
        exact Option.noConfusion h
      · rintro ⟨h1, -⟩
        exact absurd h1.symm hpc

theorem leadsChars_iff : ∀ (p l : List Char),
    leadsChars p l = true ↔ ∃ r, l = p ++ r
  | [], l => by simp [leadsChars]
  | _ :: _, [] => by simp [leadsChars]
  | p :: ps, c :: cs => by
    simp only [leadsChars, Bool.and_eq_true, beq_iff_eq, List.cons_append,
      List.cons.injEq]
    rw [leadsChars_iff ps cs]
    constructor
    · rintro ⟨rfl, r, rfl⟩
      exact ⟨r, rfl, rfl⟩
    · rintro ⟨r, rfl, hr⟩
      exact ⟨rfl, r, hr⟩

theorem reSearch_iff (m : List Char → Bool) : ∀ (s : List Char),
    reSearch m s = true ↔ ∃ a b, s = a ++ b ∧ m b = true
  | [] => by
    rw [show reSearch m [] = m [] from rfl]
    constructor
    · intro h
      exact ⟨[], [], rfl, h⟩
    · rintro ⟨a, b, hab, hm⟩
      obtain ⟨rfl, rfl⟩ := List.append_eq_nil.mp hab.symm
      exact hm
  | c :: cs => by
    simp only [reSearch, Bool.or_eq_true]
    rw [reSearch_iff m cs]
    constructor
    · rintro (h | ⟨a, b, rfl, hm⟩)
      · exact ⟨[], c :: cs, rfl, h⟩
      · exact ⟨c :: a, b, rfl, hm⟩
    · rintro ⟨a, b, hab, hm⟩
      cases a with
      | nil =>
        left
        simp only [List.nil_append] at hab
        rw [hab]
        exact hm
      | cons a0 as =>
        right
        rw [List.cons_append, List.cons.injEq] at hab
        exact ⟨as, b, hab.2, hm⟩

theorem backendMatchAt_iff (opts : List (List Char)) (l : List Char) :
    backendMatchAt opts l = true ↔
      ∃ sep opt b, opt ∈ opts ∧ (sep = ' ' ∨ sep = '=') ∧
        l = "--ps-backend".toList ++ sep :: (opt ++ b) := by
  constructor
  · intro h
    unfold backendMatchAt at h
    cases hstrip : stripChars "--ps-backend".toList l with
    | none =>
      rw [hstrip] at h
      exact absurd h (by simp [backendMatchTail])
    | some rest =>
      rw [hstrip] at h
      cases rest with
      | nil => exact absurd h (by simp [backendMatchTail])
      | cons c rest2 =>
        simp only [backendMatchTail, Bool.and_eq_true, Bool.or_eq_true,
          beq_iff_eq, List.any_eq_true] at h
        obtain ⟨hsep, opt, hopt, hlead⟩ := h
        obtain ⟨b, rfl⟩ := (leadsChars_iff opt rest2).mp hlead
        have hl := (stripChars_some_iff "--ps-backend".toList l
          (c :: (opt ++ b))).mp hstrip
        exact ⟨c, opt, b, hopt, hsep, hl⟩
  · rintro ⟨sep, opt, b, hopt, hsep, rfl⟩
    unfold backendMatchAt
    rw [(stripChars_some_iff _ _ _).mpr rfl]
    simp only [backendMatchTail, Bool.and_eq_true, Bool.or_eq_true,
      beq_iff_eq, List.any_eq_true]
    exact ⟨hsep, opt, hopt, (leadsChars_iff opt _).mpr ⟨b, rfl⟩⟩

theorem ipfsMatchAt_iff (l : List Char) :
    ipfsMatchAt l = true ↔
      l = "--ipfs".toList ∨
        ∃ c b, pySpace c = true ∧ l = "--ipfs".toList ++ c :: b := by
  constructor
  · intro h
    unfold ipfsMatchAt at h
    cases hstrip : stripChars "--ipfs".toList l with
    | none =>
      rw [hstrip] at h
      exact absurd h (by simp [ipfsMatchTail])
    | some rest =>
      rw [hstrip] at h
      have hl := (stripChars_some_iff "--ipfs".toList l rest).mp hstrip
      cases rest with
      | nil =>
        left
        simpa using hl
      | cons c rest2 =>
        right
        simp only [ipfsMatchTail] at h
        exact ⟨c, rest2, h, hl⟩
  · rintro (rfl | ⟨c, b, hc, rfl⟩)
    · unfold ipfsMatchAt
      rw [(stripChars_some_iff _ _ []).mpr (by simp)]
      rfl
    · unfold ipfsMatchAt
      rw [(stripChars_some_iff _ _ _).mpr rfl]
      simpa [ipfsMatchTail] using hc

theorem reSearch_backend_iff (opt : String) (s : List Char) :
    reSearch (backendMatchAt [opt.toList]) s = true ↔ BackendSelected opt s := by
  rw [reSearch_iff]
  unfold BackendSelected
  constructor
  · rintro ⟨a, b, rfl, hm⟩
    obtain ⟨sep, o, b2, ho, hsep, rfl⟩ := (backendMatchAt_iff _ _).mp hm
    rw [List.mem_singleton] at ho
    subst ho
    exact ⟨a, sep, b2, hsep, rfl⟩
  · rintro ⟨a, sep, b, hsep, rfl⟩
    exact ⟨a, _, rfl, (backendMatchAt_iff _ _).mpr
      ⟨sep, opt.toList, b, List.mem_singleton.mpr rfl, hsep, rfl⟩⟩

theorem reSearch_port_iff (s : List Char) :
    reSearch (backendMatchAt
      ["REDIS".toList, "MARGO".toList, "UCX".toList, "ZMQ".toList]) s = true ↔
      (BackendSelected "REDIS" s ∨ BackendSelected "MARGO" s ∨
        BackendSelected "UCX" s ∨ BackendSelected "ZMQ" s) := by
  rw [reSearch_iff]
  constructor
  · rintro ⟨a, b, rfl, hm⟩
    obtain ⟨sep, o, b2, ho, hsep, rfl⟩ := (backendMatchAt_iff _ _).mp hm
    simp only [List.mem_cons, List.mem_singleton] at ho
    rcases ho with rfl | rfl | rfl | ho
    · exact Or.inl ⟨a, sep, b2, hsep, rfl⟩
    · exact Or.inr (Or.inl ⟨a, sep, b2, hsep, rfl⟩)
    · exact Or.inr (Or.inr (Or.inl ⟨a, sep, b2, hsep, rfl⟩))
    · rcases ho with rfl | h
      · exact Or.inr (Or.inr (Or.inr ⟨a, sep, b2, hsep, rfl⟩))
      · exact absurd h (List.not_mem_nil o)
  · rintro (⟨a, sep, b, hsep, rfl⟩ | ⟨a, sep, b, hsep, rfl⟩ |
      ⟨a, sep, b, hsep, rfl⟩ | ⟨a, sep, b, hsep, rfl⟩)
    · exact ⟨a, _, rfl, (backendMatchAt_iff _ _).mpr
        ⟨sep, "REDIS".toList, b, by simp, hsep, rfl⟩⟩
    · exact ⟨a, _, rfl, (backendMatchAt_iff _ _).mpr
        ⟨sep, "MARGO".toList, b, by simp, hsep, rfl⟩⟩
    · exact ⟨a, _, rfl, (backendMatchAt_iff _ _).mpr
        ⟨sep, "UCX".toList, b, by simp, hsep, rfl⟩⟩
    · exact ⟨a, _, rfl, (backendMatchAt_iff _ _).mpr
        ⟨sep, "ZMQ".toList, b, by simp, hsep, rfl⟩⟩

theorem reSearch_ipfs_iff (s : List Char) :
    reSearch ipfsMatchAt s = true ↔ IpfsFlagGiven s := by
  rw [reSearch_iff]
  unfold IpfsFlagGiven
  constructor
  · rintro ⟨a, b, rfl, hm⟩
    rcases (ipfsMatchAt_iff b).mp hm with rfl | ⟨c, b2, hc, rfl⟩
    · exact Or.inl ⟨a, rfl⟩
    · exact Or.inr ⟨a, c, b2, hc, rfl⟩
  · rintro (⟨a, rfl⟩ | ⟨a, c, b, hc, rfl⟩)
    · exact ⟨a, _, rfl, (ipfsMatchAt_iff _).mpr (Or.inl rfl)⟩
    · exact ⟨a, _, rfl, (ipfsMatchAt_iff _).mpr (Or.inr ⟨c, b, hc, rfl⟩)⟩

/-! ### Claim theorem for the argparse conditional requiredness -/

/-- Claim C6: `add_proxystore_options` marks each backend-specific flag
required exactly when its governing backend choice appears in the raw
argument list — `--ps-endpoints` iff the joined `sys.argv` contains
`--ps-backend` followed by a space or `=` followed by `ENDPOINT`, and so
on for `FILE`, `GLOBUS`, `REDIS` (for `--ps-host`), while `--ps-port` is
required iff the chosen backend is one of `REDIS`, `MARGO`, `UCX`, `ZMQ`;
similarly `add_ipfs_options` marks `--ipfs-local-dir` and
`--ipfs-remote-dir` required exactly when the `--ipfs` flag is present in
the raw argument list (the joined `sys.argv` contains `--ipfs` at its end
or followed by whitespace). -/
theorem conditional_requiredness (argv : List String) (required : Bool) :
    ((add_proxystore_options argv required).ps_endpoints_required = true ↔
      BackendSelected "ENDPOINT" (joinArgv argv).toList) ∧
    ((add_proxystore_options argv required).ps_file_dir_required = true ↔
      BackendSelected "FILE" (joinArgv argv).toList) ∧
    ((add_proxystore_options argv required).ps_globus_config_required = true ↔
      BackendSelected "GLOBUS" (joinArgv argv).toList) ∧
    ((add_proxystore_options argv required).ps_host_required = true ↔
      BackendSelected "REDIS" (joinArgv argv).toList) ∧
    ((add_proxystore_options argv required).ps_port_required = true ↔
      (BackendSelected "REDIS" (joinArgv argv).toList ∨
        BackendSelected "MARGO" (joinArgv argv).toList ∨
        BackendSelected "UCX" (joinArgv argv).toList ∨
        BackendSelected "ZMQ" (joinArgv argv).toList)) ∧
    ((add_ipfs_options argv).ipfs_local_dir_required = true ↔
      IpfsFlagGiven (joinArgv argv).toList) ∧
    ((add_ipfs_options argv).ipfs_remote_dir_required = true ↔
      IpfsFlagGiven (joinArgv argv).toList) :=
  ⟨reSearch_backend_iff "ENDPOINT" _, reSearch_backend_iff "FILE" _,
    reSearch_backend_iff "GLOBUS" _, reSearch_backend_iff "REDIS" _,
    reSearch_port_iff _, reSearch_ipfs_iff _, reSearch_ipfs_iff _⟩

/-- Concrete instantiation of `conditional_requiredness`: with
`sys.argv = [--ps-backend=REDIS]` the port flag is required, and with
`sys.argv = [--ipfs]` the IPFS directory flags are required. -/
theorem conditional_requiredness_witness :
    (add_proxystore_options ["--ps-backend=REDIS"] false).ps_port_required =
        true ∧
      (add_ipfs_options ["--ipfs"]).ipfs_local_dir_required = true :=
  ⟨(conditional_requiredness ["--ps-backend=REDIS"] false).2.2.2.2.1.mpr
      (Or.inl ⟨[], '=', [], Or.inr rfl, by decide⟩),
    (conditional_requiredness ["--ipfs"] false).2.2.2.2.2.1.mpr
      (Or.inl ⟨[], by decide⟩)⟩

/-! ### Claim theorem for the CSV logger (modelled from the spec) -/

/-- Claim C7: the CSV logger writes the header row exactly once per file —
only when the file is newly created, never when reopening an existing file
for append — and constructing a logger over an existing file raises
`ValueError` when the supplied record type's field names do not match the
file's existing header; record types of different shapes with identical
field names are interchangeable, and appending rows never touches the
header. -/
theorem csv_logger_header_protocol (rt rt2 : RecordType) (f : CSVFile) :
    (CSVLogger.open none rt =
      .ok { file := { header := field_names rt, rows := [] }
            wrote_header := true }) ∧
    (f.header = field_names rt →
      CSVLogger.open (some f) rt = .ok { file := f, wrote_header := false }) ∧
    (f.header ≠ field_names rt →
      CSVLogger.open (some f) rt =
        .error "CSV file exists but its header does not match the record type") ∧
    (field_names rt = field_names rt2 →
      CSVLogger.open (some f) rt = CSVLogger.open (some f) rt2) ∧
    (∀ st row, (CSVLogger.log st row).file.header = st.file.header ∧
      (CSVLogger.log st row).wrote_header = st.wrote_header) := by
  refine ⟨rfl, fun h => ?_, fun h => ?_, fun h => ?_,
    fun st row => ⟨rfl, rfl⟩⟩
  · simp [CSVLogger.open, h]
  · simp [CSVLogger.open, h]
  · simp [CSVLogger.open, h]

/-- Concrete instantiation of `csv_logger_header_protocol`: a named tuple
and a dataclass with the same field names open an existing file
identically, and a record type with different field names raises. -/
theorem csv_logger_header_protocol_witness :
    CSVLogger.open (some csvFileEx)
        (RecordType.namedTuple ["time", "value", "result"]) =
      CSVLogger.open (some csvFileEx)
        (RecordType.dataclassRec ["time", "value", "result"]) ∧
    CSVLogger.open (some csvFileEx) (RecordType.namedTuple ["x"]) =
      .error "CSV file exists but its header does not match the record type" :=
  ⟨(csv_logger_header_protocol (RecordType.namedTuple ["time", "value", "result"])
      (RecordType.dataclassRec ["time", "value", "result"]) csvFileEx).2.2.2.1 rfl,
    (csv_logger_header_protocol (RecordType.namedTuple ["x"])
      (RecordType.namedTuple ["x"]) csvFileEx).2.2.1 (by decide)⟩

end PSBench
